import Mathlib

set_option maxRecDepth 8192

/-!
Verification development for the Swanson orchestration engine.

The definitions below are a shallow embedding of the core orchestration
code: the per-story phase state machine with bounded self-healing
(src/swanson/loop.py), the regression harness (loop.py), and the
crash-safe persistence layer (src/swanson/state_manager.py).

Pure Python functions become Lean functions.  Filesystem and subprocess
effects are made explicit: each embedded operation takes a small record
describing the relevant part of the world (which files exist, what a test
run returns, which system call fails) and returns the outcome together
with the resulting world.  Python exceptions become an explicit error
type; a function that lets an exception escape returns an Except value,
while a function that catches everything returns plainly.  Where an
embedding instruments the code with a counter (number of fix attempts,
number of regression-suite runs) the counter annotates each branch with
the number of calls performed on that source path.
-/

/-- Python exception values that the embedded code can raise. -/
inductive PyErr where
  | fileNotFound (msg : String)
  | runtimeError (msg : String)
  | valueError (msg : String)
  | osError (msg : String)
  | timeoutExpired
deriving DecidableEq

/-- Single-quote character, used to mirror the Python repr of strings. -/
def squote : Char := Char.ofNat 39

/-- Python repr of a string, simplified to quoting (ids contain no quotes). -/
def pyStrRepr (s : String) : String :=
  String.singleton squote ++ s ++ String.singleton squote

/-- Comma-joined reprs of the elements, mirroring the inside of str(list). -/
def pyListReprAux : List String → String
  | [] => ""
  | [x] => pyStrRepr x
  | x :: y :: ys => pyStrRepr x ++ ", " ++ pyListReprAux (y :: ys)

/-- Python str of a list of strings, as produced by an f-string. -/
def pyListRepr (l : List String) : String :=
  "[" ++ pyListReprAux l ++ "]"

/-!
Phase tracker (loop.py, track_phase and get_current_phase).

The global dict _phase_storage is modelled as an association list in
which assignment conses a new binding and lookup takes the first match,
which agrees observationally with dict update and lookup.
-/

/-- Storage for the module-level _phase_storage dict. -/
abbrev Storage := List (String × String)

/-- Valid phases, from the set literal in track_phase. -/
def validPhases : List String := ["test", "implement", "fix"]

/-- Error message of the ValueError raised by track_phase; the Python
f-string joins the sorted valid phases. -/
def invalidPhaseMsg (phase : String) : String :=
  "Invalid phase " ++ pyStrRepr phase ++ ". Must be one of: fix, implement, test"

/-- Embedding of track_phase: validate the phase, then store the mapping.
Raising before the assignment means the storage is not updated. -/
def track_phase (st : Storage) (story_id phase : String) : Except PyErr Storage :=
  if phase ∈ validPhases then
    .ok ((story_id, phase) :: st)
  else
    .error (.valueError (invalidPhaseMsg phase))

/-- Embedding of get_current_phase: dict .get, never raises. -/
def get_current_phase (st : Storage) (story_id : String) : Option String :=
  (st.find? (fun p => p.1 == story_id)).map Prod.snd

/-!
Story loop (loop.py, run_story_tests / attempt_fix_with_context /
execute_story_loop).

The external world is a LoopEnv: whether the test file for the story
exists, and the pass/fail outcome of the n-th execution of the test
suite (run_story_tests runs pytest; successive runs may differ, so the
outcomes form a stream indexed by a run counter threaded through the
embedding).  capturedOutput stands for the stdout+stderr captured by the
extra subprocess run used only to build the fix context.
-/

/-- External collaborators of the story loop. -/
structure LoopEnv where
  fileExists : Bool
  results : Nat → Bool
  capturedOutput : String

/-- Embedding of run_story_tests: raises FileNotFoundError when the test
file is absent, otherwise runs pytest and reports pass/fail.  The second
component is the updated run counter. -/
def run_story_tests (env : LoopEnv) (story_id : String) (n : Nat) :
    (Except PyErr Bool) × Nat :=
  if env.fileExists then
    (.ok (env.results n), n + 1)
  else
    (.error (.fileNotFound ("Test file not found: tests/test_" ++ story_id ++ ".py")), n)

/-- Embedding of attempt_fix_with_context: the placeholder re-runs the
story tests, catching FileNotFoundError and returning false.  The
test_output and error_type arguments are carried but unused, as in the
source. -/
def attempt_fix_with_context (env : LoopEnv) (story_id : String)
    (_test_output _error_type : Option String) (n : Nat) : Bool × Nat :=
  match run_story_tests env story_id n with
  | (.ok b, n2) => (b, n2)
  | (.error _, n2) => (false, n2)

/-- Result dict of execute_story_loop; keys absent from a given return
are modelled as none. -/
structure StoryLoopResult where
  story_id : String
  phase : String
  tests_pass : Option Bool
  fix_applied : Option Bool
  blocked : Bool
deriving DecidableEq

/-- Tail of the fix-failure message, after the story id. -/
def fixFailedTail : String :=
  " failed: Tests failing after implementation and automatic fix attempt. Human intervention required to resolve test failures."

/-- Message of the RuntimeError raised when the single fix attempt fails. -/
def fixFailedMsg (story_id : String) : String :=
  "Story " ++ (story_id ++ fixFailedTail)

/-- Embedding of execute_story_loop.  The returned triple is the result
or escaping exception, the final phase storage, and the number of calls
made to attempt_fix_with_context on the taken path. -/
def execute_story_loop (env : LoopEnv) (story_id phase : String) (st : Storage) :
    (Except PyErr StoryLoopResult) × Storage × Nat :=
  match track_phase st story_id phase with
  | .error e => (.error e, st, 0)
  | .ok st1 =>
    if phase = "test" then
      match run_story_tests env story_id 0 with
      | (.error e, _) => (.error e, st1, 0)
      | (.ok tp, _) =>
        (.ok ⟨story_id, "test", some tp, none, false⟩, st1, 0)
    else if phase = "implement" then
      match run_story_tests env story_id 0 with
      | (.error e, _) => (.error e, st1, 0)
      | (.ok tp, n1) =>
        if tp then
          (.ok ⟨story_id, "implement", some true, none, false⟩, st1, 0)
        else
          match track_phase st1 story_id "fix" with
          | .error e => (.error e, st1, 0)
          | .ok st2 =>
            match attempt_fix_with_context env story_id
                (some env.capturedOutput) (some "test_failure") n1 with
            | (true, _) =>
              (.ok ⟨story_id, "fix", some true, some true, false⟩, st2, 1)
            | (false, _) =>
              (.error (.runtimeError (fixFailedMsg story_id)), st2, 1)
    else
      match track_phase st1 story_id "fix" with
      | .error e => (.error e, st1, 0)
      | .ok st2 =>
        (.ok ⟨story_id, "fix", none, none, false⟩, st2, 0)

/-!
Regression harness (loop.py, run_regression_tests /
attempt_regression_fix / execute_story_with_regression).
-/

/-- Outcome of one pytest execution on the regression directory: either
the process finishes with an exit code, or the 300 second wall-clock
timeout expires (subprocess.run raises TimeoutExpired). -/
inductive RegOutcome where
  | completed (code : Int)
  | timedOut
deriving DecidableEq

/-- External collaborators of the regression flow. -/
structure RegEnv where
  storyFileExists : Bool
  storyResult : Bool
  regressionDirExists : Bool
  regOutcomes : Nat → RegOutcome
  regOutput : String

/-- Embedding of run_regression_tests.  When the regression directory is
absent the suite vacuously passes.  Otherwise pytest runs with
timeout equal to 300; the source has no try/except around subprocess.run, so a
timeout escapes as an exception.  Exit code 0 or 5 counts as pass.  The
second component counts actual pytest executions. -/
def run_regression_tests (env : RegEnv) (k : Nat) : (Except PyErr Bool) × Nat :=
  if env.regressionDirExists then
    match env.regOutcomes k with
    | .timedOut => (.error .timeoutExpired, k + 1)
    | .completed c => (.ok (c == 0 || c == 5), k + 1)
  else
    (.ok true, k)

/-- Embedding of get_regression_failure_context. -/
def get_regression_failure_context (story_id failing_test : String) : String :=
  "Story " ++ story_id ++ " broke regression test " ++ failing_test

/-- Best-effort extraction of the failing regression test name from raw
pytest output, mirroring the line scan in the source. -/
def extractFailingTest (out : String) : String :=
  match (out.splitOn "\n").find?
      (fun l => decide ("FAILED".toList <:+: l.toList) &&
                decide ("tests/regression/".toList <:+: l.toList)) with
  | none => "unknown"
  | some l => ((((l.splitOn "FAILED").getD 1 "").trim).splitOn " ").getD 0 ""

/-- Message of the RuntimeError raised when the regression fix fails. -/
def regressionFailMsg (story_id out : String) : String :=
  "Regression tests failed after implementing " ++ story_id ++ ". " ++
    get_regression_failure_context story_id (extractFailingTest out) ++
    ". Automatic fix attempt failed. Human intervention required to resolve regression failure."

/-- Embedding of attempt_regression_fix: the placeholder re-runs the
regression suite; an escaping TimeoutExpired propagates. -/
def attempt_regression_fix (env : RegEnv) (k : Nat) : (Except PyErr Bool) × Nat :=
  run_regression_tests env k

/-- Result dict of execute_story_with_regression. -/
structure RegResult where
  story_id : String
  tests_pass : Bool
  regression_pass : Bool
  ready_for_commit : Bool
  fix_applied : Option Bool
deriving DecidableEq

/-- Embedding of execute_story_with_regression.  The second component
counts the executions of the regression suite performed by
run_regression_tests on the taken path. -/
def execute_story_with_regression (env : RegEnv) (story_id : String) :
    (Except PyErr RegResult) × Nat :=
  if env.storyFileExists then
    if env.storyResult then
      match run_regression_tests env 0 with
      | (.error e, k) => (.error e, k)
      | (.ok true, k) =>
        (.ok ⟨story_id, true, true, true, none⟩, k)
      | (.ok false, k) =>
        match attempt_regression_fix env k with
        | (.error e, k2) => (.error e, k2)
        | (.ok true, k2) =>
          (.ok ⟨story_id, true, true, true, some true⟩, k2)
        | (.ok false, k2) =>
          (.error (.runtimeError (regressionFailMsg story_id env.regOutput)), k2)
    else
      (.ok ⟨story_id, false, false, false, none⟩, 0)
  else
    (.error (.fileNotFound ("Test file not found: tests/test_" ++ story_id ++ ".py")), 0)

/-!
State persistence (state_manager.py, StateManager._save_state).

Only two paths are touched by _save_state: the state file itself and the
temporary file that mkstemp creates next to it, so the filesystem is
projected to those two slots (none means the file is absent).  The
injected failure selects which system call raises, matching the source:
mkstemp may fail before the try block, json.dump may fail after writing a
partial prefix, and the atomic replace may fail; the except branch
unlinks the temp file when it exists and re-raises.
-/

/-- Filesystem slots touched by _save_state. -/
structure SFS where
  target : Option String
  temp : Option String
deriving DecidableEq

/-- Injected failure point for _save_state. -/
inductive SaveStep where
  | mkstempFail
  | writeFail
  | renameFail
deriving DecidableEq

/-- Embedding of StateManager._save_state.  content is the serialized
state (the method also stamps last_updated into it); partialContent is
whatever json.dump managed to write before a write failure. -/
def save_state (fs : SFS) (content : String) (fail : Option SaveStep)
    (_partialContent : String) : (Except PyErr Unit) × SFS :=
  match fail with
  | some .mkstempFail =>
    (.error (.osError "mkstemp failed"), fs)
  | some .writeFail =>
    (.error (.osError "write failed"), ⟨fs.target, none⟩)
  | some .renameFail =>
    (.error (.osError "rename failed"), ⟨fs.target, none⟩)
  | none =>
    (.ok (), ⟨some content, none⟩)

/-!
Execution state (state_manager.py, StateManager.mark_story_complete and
the persisted state record).  last_updated is omitted: it is overwritten
on every save and no claim mentions it.
-/

/-- Persisted execution state record. -/
structure ExecState where
  current_prd : Option String
  current_story : Option String
  remaining_stories : List String
  completed_stories : List String
  session_count : Nat
deriving DecidableEq

/-- Data-model invariant stated by the specification: the remaining and
completed story lists are disjoint, and there is a current story exactly
when stories remain. -/
def stateInvariant (s : ExecState) : Prop :=
  (∀ x ∈ s.remaining_stories, x ∉ s.completed_stories) ∧
  (s.current_story = none ↔ s.remaining_stories = [])

/-- Embedding of mark_story_complete: list.remove drops the first
occurrence when present (List.erase), the story is appended to completed
when absent, and current_story becomes the new head of remaining or
none.  Persistence is performed by save_state and modelled separately. -/
def mark_story_complete (s : ExecState) (story_id : String) : ExecState :=
  let remaining := s.remaining_stories.erase story_id
  let completed :=
    if story_id ∈ s.completed_stories then s.completed_stories
    else s.completed_stories ++ [story_id]
  { s with
    remaining_stories := remaining
    completed_stories := completed
    current_story := remaining.head? }

/-!
Atomic PRD archiving (state_manager.py, StateManager._archive_prd_atomic).

The filesystem is projected to the source PRD file and the archive copy,
tracked by byte size, which is exactly what the verification step
compares.  CopyOutcome describes what shutil.copy2 does: success yields
a destination of some size (a size different from the source models a
torn copy that raised no exception), failure raises and may leave a
partial destination file.
-/

/-- Filesystem slots touched by _archive_prd_atomic (file sizes). -/
structure AFS where
  source : Option Nat
  archiveDirExists : Bool
  archiveFile : Option Nat
deriving DecidableEq

/-- Behaviour of the copy step. -/
inductive CopyOutcome where
  | ok (size : Nat)
  | fails (partialFile : Option Nat)
deriving DecidableEq

/-- Injected behaviour of each system call used by _archive_prd_atomic. -/
structure ArchEnv where
  mkdirFails : Bool
  writable : Bool
  copyOutcome : CopyOutcome
  statFails : Bool
  unlinkSourceFails : Bool
  unlinkArchiveFails : Bool
deriving DecidableEq

/-- Embedding of _archive_prd_atomic, following the source step by step:
verify the source exists, create the archive directory, check
writability, copy, verify existence and byte-size equality of the copy,
and only then delete the source.  Note that the except branch of the
copy step returns immediately without deleting a partial archive file,
while the verification and delete steps do unlink the copy. -/
def archive_prd_atomic (fs : AFS) (env : ArchEnv) (prdName : String) :
    (Bool × String) × AFS :=
  match fs.source with
  | none => ((false, "Source PRD not found: prds/" ++ prdName), fs)
  | some ssize =>
    if env.mkdirFails then
      ((false, "Cannot create archive directory: oserror"), fs)
    else
      let fs1 : AFS := { fs with archiveDirExists := true }
      if !env.writable then
        ((false, "Archive directory is not writable: prds/archive"), fs1)
      else
        match env.copyOutcome with
        | .fails partialFile =>
          ((false, "Failed to copy to archive: oserror"),
            { fs1 with archiveFile := partialFile })
        | .ok csize =>
          let fs2 : AFS := { fs1 with archiveFile := some csize }
          if env.statFails then
            ((false, "Archive verification failed: oserror"),
              { fs2 with archiveFile := none })
          else if csize ≠ ssize then
            ((false, "Archive copy size mismatch: " ++ toString ssize ++
                " != " ++ toString csize),
              { fs2 with archiveFile := none })
          else
            if env.unlinkSourceFails then
              if env.unlinkArchiveFails then
                ((false, "Failed to delete original after archiving: oserror"), fs2)
              else
                ((false, "Failed to delete original after archiving: oserror"),
                  { fs2 with archiveFile := none })
            else
              ((true, ""), { fs2 with source := none })

/-!
Test artifact migration (loop.py, move_test_to_regression).

The filesystem is projected to the slots the function touches for the
given story: the tests directory, the story test file (by content), the
path tests/regression (absent, a directory, or a non-directory entry),
and the destination file.  Every exception inside the body is caught and
turned into a false return, so the embedding is a total function; it
also returns the list of warnings logged on the taken path.
-/

/-- State of the tests/regression path. -/
inductive RegPath where
  | absent
  | dir
  | nondir
deriving DecidableEq

/-- Filesystem slots touched by move_test_to_regression. -/
structure MFS where
  testsDirExists : Bool
  testFile : Option String
  regressionPath : RegPath
  destFile : Option String
deriving DecidableEq

/-- Injected behaviour of the system calls used by the move. -/
structure MoveEnv where
  mkdirFails : Bool
  copyFails : Bool
  copyPartial : Option String
  unlinkFails : Bool
deriving DecidableEq

/-- Embedding of the story-id sanitization performed before building
paths: path separators and parent-directory sequences become
underscores. -/
def sanitizeStoryId (s : String) : String :=
  ((s.replace "/" "_").replace "\\" "_").replace ".." "_"

/-- Embedding of move_test_to_regression: validate the tests directory
and test file, create the regression directory if needed (mkdir with
exist_ok raises on a non-directory entry), copy the file, and delete the
original only after the copy succeeded.  Every failure returns false
with a warning; nothing raises. -/
def move_test_to_regression (fs : MFS) (env : MoveEnv) :
    Bool × MFS × List String :=
  if !fs.testsDirExists then
    (false, fs, ["Tests directory does not exist"])
  else
    match fs.testFile with
    | none => (false, fs, ["Test file does not exist"])
    | some content =>
      if env.mkdirFails then
        (false, fs, ["Failed to create regression directory"])
      else if fs.regressionPath = RegPath.nondir then
        (false, fs, ["Failed to create regression directory"])
      else
        let fs1 : MFS := { fs with regressionPath := RegPath.dir }
        if env.copyFails then
          (false, { fs1 with destFile := env.copyPartial },
            ["Failed to copy test file to regression directory"])
        else
          let fs2 : MFS := { fs1 with destFile := some content }
          if env.unlinkFails then
            (false, fs2, ["Failed to delete original test file (copy succeeded)"])
          else
            (true, { fs2 with testFile := none }, [])

/-!
PRD queue (state_manager.py, StateManager._verify_state_integrity,
StateManager._verify_completion and StateManager.load_next_prd).

The prds directory is a list of (filename, content) pairs; glob("*.json")
followed by sorted() is modelled by sorting the filenames (all modelled
entries are json files).  A content of none stands for a file whose text
is not valid JSON or cannot be read; some ids is the list of story ids
extracted from userStories.  The embedding emits an event trace: the
warnings and error logs of the source, plus a save event for each call
to _save_state, so that persistence (or its absence) is observable.
-/

/-- Parsed content of a PRD file: none when the file cannot be read or
is not valid JSON, otherwise its story ids in order. -/
abbrev PrdContent := Option (List String)

/-- Filesystem slots touched by load_next_prd. -/
structure PrdWorld where
  prds : List (String × PrdContent)
  archive : List (String × PrdContent)
deriving DecidableEq

/-- Logged events and persistence actions of load_next_prd. -/
inductive Ev where
  | warn (msg : String)
  | errlog (msg : String)
  | info (msg : String)
  | save
deriving DecidableEq

/-- Lookup of a file by name in a directory listing. -/
def lookupFile (l : List (String × PrdContent)) (name : String) : Option PrdContent :=
  (l.find? (fun p => p.1 == name)).map Prod.snd

/-- Insertion of a name into a lexicographically sorted list. -/
def insertSorted (x : String) : List String → List String
  | [] => [x]
  | y :: ys => if x ≤ y then x :: y :: ys else y :: insertSorted x ys

/-- Sorted filenames, modelling sorted(prds_dir.glob("*.json")). -/
def sortNames (l : List String) : List String :=
  l.foldr insertSorted []

/-- Embedding of _verify_state_integrity.  The check inspects the raw
state dict for missing fields and wrong container types; in this typed
embedding state is a record with list fields by construction, so the
check always passes. -/
def verify_state_integrity (_s : ExecState) : Bool × String :=
  (true, "")

/-- Completion-check message listing the remaining stories, as produced
by the Python f-string interpolating the list. -/
def incompleteStoriesMsg (remaining : List String) : String :=
  "PRD has " ++ toString remaining.length ++ " incomplete stories: " ++
    pyListRepr remaining

/-- Embedding of _verify_completion: remaining_stories must be empty,
the PRD file must exist and parse, and every story id listed in it must
appear in completed_stories (the first missing id is reported). -/
def verify_completion (s : ExecState) (w : PrdWorld) (prdName : String) :
    Bool × String :=
  if s.remaining_stories ≠ [] then
    (false, incompleteStoriesMsg s.remaining_stories)
  else
    match lookupFile w.prds prdName with
    | none => (false, "PRD file not found: prds/" ++ prdName)
    | some none => (false, "PRD file is not valid JSON: parse error")
    | some (some ids) =>
      match ids.find? (fun i => !(s.completed_stories.contains i)) with
      | some i => (false, "Story " ++ i ++ " not in completed_stories")
      | none => (true, "")

/-- Warning emitted when archiving is skipped because the current PRD is
not complete. -/
def cannotArchiveMsg (prd err : String) : String :=
  "Cannot archive " ++ prd ++ ": " ++ err ++
    ". PRD has incomplete stories. Skipping archive to preserve work."

/-- Archiving part of load_next_prd: integrity check, completion check,
then the atomic archive.  The internal mechanics of the atomic archive
are modelled in detail by archive_prd_atomic; at this level archiveOk
injects its success or failure, success moves the file from prds to the
archive listing, and failure leaves the directory unchanged with a
warning (the source continues either way). -/
def archivePhase (w : PrdWorld) (s : ExecState) (archiveOk : Bool) :
    PrdWorld × List Ev :=
  match s.current_prd with
  | none => (w, [])
  | some prd =>
    let (valid, verr) := verify_state_integrity s
    if !valid then
      (w, [Ev.warn ("Skipping archive: " ++ verr)])
    else
      let (complete, cerr) := verify_completion s w prd
      if !complete then
        (w, [Ev.warn (cannotArchiveMsg prd cerr)])
      else
        if archiveOk then
          match lookupFile w.prds prd with
          | some c =>
            (⟨w.prds.filter (fun p => p.1 != prd), w.archive ++ [(prd, c)]⟩,
              [Ev.info ("Successfully archived " ++ prd)])
          | none =>
            (w, [Ev.warn ("Failed to archive " ++ prd ++ ": source missing")])
        else
          (w, [Ev.warn ("Failed to archive " ++ prd ++ ": archive error")])

/-- Embedding of load_next_prd: run the archive phase, then pick the
lexicographically first PRD file.  An empty queue clears the PRD and
story fields and persists; a file that cannot be parsed is logged and
the function returns false without touching or persisting the state;
otherwise the state is reset to the new PRD and persisted. -/
def load_next_prd (w : PrdWorld) (s : ExecState) (archiveOk : Bool) :
    Bool × ExecState × PrdWorld × List Ev :=
  let (w1, evs1) := archivePhase w s archiveOk
  match sortNames (w1.prds.map Prod.fst) with
  | [] =>
    (false,
      { s with current_prd := none, current_story := none, remaining_stories := [] },
      w1, evs1 ++ [Ev.save])
  | nextName :: _ =>
    match lookupFile w1.prds nextName with
    | none =>
      (false, s, w1, evs1 ++ [Ev.errlog ("Failed to load PRD " ++ nextName)])
    | some none =>
      (false, s, w1,
        evs1 ++ [Ev.errlog ("Failed to load PRD " ++ nextName ++ ": invalid JSON: parse error")])
    | some (some ids) =>
      (true,
        { s with
          current_prd := some nextName
          current_story := ids.head?
          remaining_stories := ids
          completed_stories := [] },
        w1, evs1 ++ [Ev.save])

/-!
Concrete worlds, states and environments used by the witnesses and
counterexamples below.
-/

/-- Execution state with a duplicated remaining story: it satisfies the
invariant stated by the specification, which does not rule out
duplicates. -/
def dupState : ExecState :=
  ⟨some "p.json", some "US-1", ["US-1", "US-1"], [], 0⟩

/-- State used by the mark_story_complete witness. -/
def seqState : ExecState :=
  ⟨some "p.json", some "US-1", ["US-1", "US-2"], [], 0⟩

/-- Archive filesystem in which the source PRD is 100 bytes and nothing
is archived yet. -/
def copyFailFS : AFS := ⟨some 100, true, none⟩

/-- Archive environment in which shutil.copy2 raises after writing a
10-byte partial file. -/
def copyFailEnv : ArchEnv := ⟨false, true, .fails (some 10), false, false, false⟩

/-- World holding one two-story PRD, used by the C8 counterexample. -/
def twoStoryWorld : PrdWorld := ⟨[("p.json", some ["US-1", "US-2"])], []⟩

/-- State whose current PRD is the two-story PRD with nothing completed
and an empty remaining list. -/
def twoStoryState : ExecState := ⟨some "p.json", none, [], [], 0⟩

/-- The warning that load_next_prd emits on the two-story world. -/
def twoStoryWarning : String :=
  cannotArchiveMsg "p.json" "Story US-1 not in completed_stories"

/-- World holding one single-story PRD, used by the C8 witness. -/
def oneStoryWorld : PrdWorld := ⟨[("p.json", some ["US-1"])], []⟩

/-- State in which the single story US-1 is still remaining. -/
def oneStoryState : ExecState := ⟨some "p.json", some "US-1", ["US-1"], [], 0⟩

/-- World whose only PRD file is unparsable, used by the C10 witness. -/
def badJsonWorld : PrdWorld := ⟨[("a.json", none)], []⟩

/-- State with no current PRD, used by the C10 witness. -/
def emptyQueueState : ExecState := ⟨none, none, [], [], 0⟩

/-!
Helper lemmas about string lists and infixes, used to state that an
error or warning message names a story id.
-/

/-- Appending strings appends their character lists. -/
theorem toListAppend (a b : String) : (a ++ b).toList = a.toList ++ b.toList := rfl

/-- An infix of a list is an infix of any extension on both sides. -/
theorem infixExtend {x s : List Char} (pre post : List Char) (h : x <:+: s) :
    x <:+: pre ++ s ++ post := by
  obtain ⟨u, v, huv⟩ := h
  exact ⟨pre ++ u, v ++ post, by rw [← huv]; simp⟩

/-- An infix of a list is an infix of any left extension. -/
theorem infixExtendLeft {x s : List Char} (pre : List Char) (h : x <:+: s) :
    x <:+: pre ++ s := by
  have := infixExtend pre [] h
  simpa using this

/-- An infix of a list is an infix of any right extension. -/
theorem infixExtendRight {x s : List Char} (post : List Char) (h : x <:+: s) :
    x <:+: s ++ post := by
  have := infixExtend [] post h
  simpa using this

/-- A string occurs inside its own Python repr. -/
theorem infixPyStrRepr (x : String) : x.toList <:+: (pyStrRepr x).toList := by
  unfold pyStrRepr
  rw [toListAppend, toListAppend]
  exact infixExtend _ _ (List.infix_rfl)

/-- A member of a list occurs inside the comma-joined repr of the list. -/
theorem infixPyListReprAux (l : List String) (x : String) (hx : x ∈ l) :
    x.toList <:+: (pyListReprAux l).toList := by
  induction l with
  | nil => cases hx
  | cons y ys ih =>
    cases ys with
    | nil =>
      have hxy : x = y := by simpa using hx
      subst hxy
      simpa [pyListReprAux] using infixPyStrRepr x
    | cons z zs =>
      rcases List.mem_cons.mp hx with hxy | hmem
      · subst hxy
        show x.toList <:+: (pyStrRepr x ++ ", " ++ pyListReprAux (z :: zs)).toList
        rw [toListAppend, toListAppend]
        exact infixExtendRight _ (infixExtendRight _ (infixPyStrRepr x))
      · show x.toList <:+: (pyStrRepr y ++ ", " ++ pyListReprAux (z :: zs)).toList
        rw [toListAppend, toListAppend]
        exact infixExtendLeft _ (ih hmem)

/-- A member of a list occurs inside the Python str of the list. -/
theorem infixPyListRepr (l : List String) (x : String) (hx : x ∈ l) :
    x.toList <:+: (pyListRepr l).toList := by
  unfold pyListRepr
  rw [toListAppend, toListAppend]
  exact infixExtend _ _ (infixPyListReprAux l x hx)

/-- C9: for every story id and every phase value outside test,
implement, fix, track_phase raises ValueError and records nothing (no
updated storage is produced, so the storage remains the prior one); for
every valid phase the mapping is recorded and get_current_phase returns
it; get_current_phase on a story id with no binding returns none and
never raises (it is total). -/
theorem track_phase_spec :
    (∀ (st : Storage) (sid ph : String), ph ∉ validPhases →
      track_phase st sid ph = .error (.valueError (invalidPhaseMsg ph))) ∧
    (∀ (st : Storage) (sid ph : String), ph ∈ validPhases →
      track_phase st sid ph = .ok ((sid, ph) :: st) ∧
      get_current_phase ((sid, ph) :: st) sid = some ph) ∧
    (∀ (st : Storage) (sid : String), (∀ p ∈ st, p.1 ≠ sid) →
      get_current_phase st sid = none) := by
  refine ⟨?_, ?_, ?_⟩
  · intro st sid ph h
    simp [track_phase, h]
  · intro st sid ph h
    refine ⟨by simp [track_phase, h], ?_⟩
    simp [get_current_phase, List.find?]
  · intro st sid h
    have : st.find? (fun p => p.1 == sid) = none := by
      rw [List.find?_eq_none]
      intro p hp
      simpa using h p hp
    simp [get_current_phase, this]

/-- Witness for track_phase_spec at concrete inputs. -/
theorem track_phase_spec_witness :
    track_phase [] "US-1" "deploy" = .error (.valueError (invalidPhaseMsg "deploy")) ∧
    track_phase [] "US-1" "implement" = .ok [("US-1", "implement")] ∧
    get_current_phase [("US-1", "implement")] "US-1" = some "implement" ∧
    get_current_phase [("US-2", "test")] "US-1" = none :=
  ⟨track_phase_spec.1 [] "US-1" "deploy" (by decide),
   (track_phase_spec.2.1 [] "US-1" "implement" (by decide)).1,
   (track_phase_spec.2.1 [] "US-1" "implement" (by decide)).2,
   track_phase_spec.2.2 [("US-2", "test")] "US-1" (by decide)⟩

/-- C1: in the implement phase of execute_story_loop, when the story
tests fail after implementation, attempt_fix_with_context is invoked
exactly once on every continuation (so no second attempt exists), and
when that single fix attempt also fails the function raises a
RuntimeError whose message contains the story id and the statement that
human intervention is required. -/
theorem execute_story_loop_fix_bound (env : LoopEnv) (sid : String) (st : Storage)
    (hf : env.fileExists = true) (h0 : env.results 0 = false) :
    (execute_story_loop env sid "implement" st).2.2 = 1 ∧
    (env.results 1 = false →
      (execute_story_loop env sid "implement" st).1 =
        .error (.runtimeError (fixFailedMsg sid)) ∧
      sid.toList <:+: (fixFailedMsg sid).toList ∧
      "Human intervention required".toList <:+: (fixFailedMsg sid).toList) := by
  have hmsg1 : sid.toList <:+: (fixFailedMsg sid).toList := by
    unfold fixFailedMsg
    rw [toListAppend, toListAppend]
    exact infixExtendLeft _ (infixExtendRight _ List.infix_rfl)
  have hmsg2 : "Human intervention required".toList <:+: (fixFailedMsg sid).toList := by
    unfold fixFailedMsg
    rw [toListAppend, toListAppend]
    refine infixExtendLeft _ (infixExtendLeft _ ?_)
    decide
  constructor
  · cases hr : env.results 1 <;>
      simp [execute_story_loop, track_phase, validPhases, run_story_tests,
        attempt_fix_with_context, hf, h0, hr]
  · intro h1
    refine ⟨?_, hmsg1, hmsg2⟩
    simp [execute_story_loop, track_phase, validPhases, run_story_tests,
      attempt_fix_with_context, hf, h0, h1]

/-- Witness for execute_story_loop_fix_bound at a concrete environment
in which the tests keep failing. -/
theorem execute_story_loop_fix_bound_witness :
    (execute_story_loop ⟨true, fun _ => false, "out"⟩ "US-001" "implement" []).2.2 = 1 ∧
    (execute_story_loop ⟨true, fun _ => false, "out"⟩ "US-001" "implement" []).1 =
      .error (.runtimeError (fixFailedMsg "US-001")) :=
  ⟨(execute_story_loop_fix_bound ⟨true, fun _ => false, "out"⟩ "US-001" [] rfl rfl).1,
   ((execute_story_loop_fix_bound ⟨true, fun _ => false, "out"⟩ "US-001" [] rfl rfl).2 rfl).1⟩

/-- C4: for every story whose own tests fail,
execute_story_with_regression performs zero executions of the regression
suite and returns tests_pass false, regression_pass false,
ready_for_commit false; the regression suite runs only after the story
tests pass. -/
theorem execute_story_with_regression_skips_regression (env : RegEnv) (sid : String)
    (hf : env.storyFileExists = true) (hs : env.storyResult = false) :
    execute_story_with_regression env sid =
      (.ok ⟨sid, false, false, false, none⟩, 0) := by
  simp [execute_story_with_regression, hf, hs]

/-- Witness for execute_story_with_regression_skips_regression at a
concrete environment with failing story tests and a regression suite
that would fail if it ever ran. -/
theorem execute_story_with_regression_skips_regression_witness :
    execute_story_with_regression ⟨true, false, true, fun _ => .completed 1, "out"⟩ "US-7" =
      (.ok ⟨"US-7", false, false, false, none⟩, 0) :=
  execute_story_with_regression_skips_regression
    ⟨true, false, true, fun _ => .completed 1, "out"⟩ "US-7" rfl rfl

/-- C5 (code bug): run_regression_tests does return true when the
regression directory is absent or the runner exits with code 0 or 5, and
false on other exit codes, but a run that exceeds the 300 second timeout
makes subprocess.run raise TimeoutExpired, and the source has no
try/except around it, so the exception escapes instead of producing a
false result — contradicting the docstring of the function, which states
that it raises nothing and handles all errors gracefully.  This theorem
evaluates the embedding at the failing input (regression directory
exists, the run times out) and at the documented inputs. -/
theorem run_regression_tests_timeout_escapes :
    run_regression_tests ⟨true, true, true, fun _ => .timedOut, "out"⟩ 0 =
      (.error .timeoutExpired, 1) ∧
    run_regression_tests ⟨true, true, false, fun _ => .timedOut, "out"⟩ 0 =
      (.ok true, 0) ∧
    run_regression_tests ⟨true, true, true, fun _ => .completed 5, "out"⟩ 0 =
      (.ok true, 1) ∧
    run_regression_tests ⟨true, true, true, fun _ => .completed 2, "out"⟩ 0 =
      (.ok false, 1) :=
  ⟨rfl, rfl, rfl, rfl⟩

/-- C2: _save_state is atomic.  When mkstemp fails nothing is touched;
when the write into the temp file fails, the partial temp file is
unlinked by the except branch and the target keeps its previous
contents; when the atomic replace fails, the temp file is unlinked and
the target keeps its previous contents; in each failure case the
exception propagates.  On success the single rename commits the new
content and no temp file remains. -/
theorem save_state_atomic (fs : SFS) (content pc : String) :
    save_state fs content (some .mkstempFail) pc =
      (.error (.osError "mkstemp failed"), fs) ∧
    save_state fs content (some .writeFail) pc =
      (.error (.osError "write failed"), ⟨fs.target, none⟩) ∧
    save_state fs content (some .renameFail) pc =
      (.error (.osError "rename failed"), ⟨fs.target, none⟩) ∧
    save_state fs content none pc =
      (.ok (), ⟨some content, none⟩) :=
  ⟨rfl, rfl, rfl, rfl⟩

/-- C3 counterexample: on a state with a duplicated remaining story that
satisfies the stated data-model invariant, mark_story_complete removes
only the first occurrence (Python list.remove), so the story stays in
remaining_stories while also being appended to completed_stories — the
claimed move and the claimed preservation of disjointness both fail. -/
theorem mark_story_complete_dup_counterexample :
    stateInvariant dupState ∧
    "US-1" ∈ (mark_story_complete dupState "US-1").remaining_stories ∧
    "US-1" ∈ (mark_story_complete dupState "US-1").completed_stories := by
  refine ⟨⟨by decide, by decide⟩, by decide, by decide⟩

/-- C3 (amended): for every execution state satisfying the data-model
invariant whose remaining_stories contains no duplicate entries,
mark_story_complete moves the story from remaining to completed, is
idempotent on an already-completed story (remaining and completed are
left unchanged, so no duplicate entry appears), sets current_story to
the new head of remaining_stories or none when empty, and preserves the
invariant together with the no-duplicates property. -/
theorem mark_story_complete_spec (s : ExecState) (story_id : String)
    (hinv : stateInvariant s) (hnd : s.remaining_stories.Nodup) :
    story_id ∉ (mark_story_complete s story_id).remaining_stories ∧
    story_id ∈ (mark_story_complete s story_id).completed_stories ∧
    (story_id ∈ s.completed_stories →
      (mark_story_complete s story_id).remaining_stories = s.remaining_stories ∧
      (mark_story_complete s story_id).completed_stories = s.completed_stories) ∧
    (mark_story_complete s story_id).current_story =
      (mark_story_complete s story_id).remaining_stories.head? ∧
    stateInvariant (mark_story_complete s story_id) ∧
    (mark_story_complete s story_id).remaining_stories.Nodup := by
  have hrem : (mark_story_complete s story_id).remaining_stories =
      s.remaining_stories.erase story_id := rfl
  have hcomp : (mark_story_complete s story_id).completed_stories =
      (if story_id ∈ s.completed_stories then s.completed_stories
       else s.completed_stories ++ [story_id]) := rfl
  have hcur : (mark_story_complete s story_id).current_story =
      (s.remaining_stories.erase story_id).head? := rfl
  refine ⟨?_, ?_, ?_, ?_, ⟨?_, ?_⟩, ?_⟩
  · rw [hrem]
    exact hnd.not_mem_erase
  · rw [hcomp]
    by_cases h : story_id ∈ s.completed_stories <;> simp [h]
  · intro h
    constructor
    · rw [hrem]
      apply List.erase_of_not_mem
      intro hmem
      exact hinv.1 story_id hmem h
    · rw [hcomp]
      simp [h]
  · rw [hcur, hrem]
  · intro x hx
    rw [hrem] at hx
    obtain ⟨hne, hxmem⟩ := (hnd.mem_erase_iff).mp hx
    rw [hcomp]
    by_cases h : story_id ∈ s.completed_stories
    · simp only [h, if_true]
      exact hinv.1 x hxmem
    · simp only [h, if_false, List.mem_append, List.mem_singleton]
      push_neg
      exact ⟨hinv.1 x hxmem, hne⟩
  · rw [hcur, hrem]
    simp [List.head?_eq_none_iff]
  · rw [hrem]
    exact hnd.erase story_id

/-- Witness for mark_story_complete_spec at a concrete two-story state. -/
theorem mark_story_complete_spec_witness :
    "US-1" ∉ (mark_story_complete seqState "US-1").remaining_stories ∧
    "US-1" ∈ (mark_story_complete seqState "US-1").completed_stories ∧
    (mark_story_complete seqState "US-1").current_story =
      (mark_story_complete seqState "US-1").remaining_stories.head? ∧
    stateInvariant (mark_story_complete seqState "US-1") :=
  ⟨(mark_story_complete_spec seqState "US-1" ⟨by decide, by decide⟩ (by decide)).1,
   (mark_story_complete_spec seqState "US-1" ⟨by decide, by decide⟩ (by decide)).2.1,
   (mark_story_complete_spec seqState "US-1" ⟨by decide, by decide⟩ (by decide)).2.2.2.1,
   (mark_story_complete_spec seqState "US-1" ⟨by decide, by decide⟩ (by decide)).2.2.2.2.1⟩

/-- C6 (code bug): when the copy step of _archive_prd_atomic fails and
leaves a partial archive file, the except branch returns the error
immediately without deleting the partial copy, so no rollback happens on
this path — contradicting the claim and the docstring of the function,
which promises rollback on any failure.  The source file is left
untouched and the function returns (false, error string) as claimed; the
partial archive copy remains. -/
theorem archive_prd_atomic_copy_fail_no_rollback :
    (archive_prd_atomic copyFailFS copyFailEnv "p.json").1 =
      (false, "Failed to copy to archive: oserror") ∧
    (archive_prd_atomic copyFailFS copyFailEnv "p.json").2.source = some 100 ∧
    (archive_prd_atomic copyFailFS copyFailEnv "p.json").2.archiveFile = some 10 :=
  ⟨rfl, rfl, rfl⟩

/-- C7: move_test_to_regression is copy-then-delete and never raises
(the embedding is a total function because the source catches every
exception).  Each failure path — missing tests directory, missing test
file, directory-creation failure, a non-directory entry at the
regression path, copy failure, delete failure — returns false with a
logged warning; a copy failure leaves the original untouched; a delete
failure after a successful copy returns false with the test file present
in both locations; on success the original is deleted only after the
copy, leaving exactly the destination copy. -/
theorem move_test_to_regression_spec (fs : MFS) (env : MoveEnv) :
    (fs.testsDirExists = false →
      move_test_to_regression fs env =
        (false, fs, ["Tests directory does not exist"])) ∧
    (fs.testsDirExists = true → fs.testFile = none →
      move_test_to_regression fs env =
        (false, fs, ["Test file does not exist"])) ∧
    (∀ c, fs.testsDirExists = true → fs.testFile = some c →
      env.mkdirFails = true →
      move_test_to_regression fs env =
        (false, fs, ["Failed to create regression directory"])) ∧
    (∀ c, fs.testsDirExists = true → fs.testFile = some c →
      env.mkdirFails = false → fs.regressionPath = RegPath.nondir →
      move_test_to_regression fs env =
        (false, fs, ["Failed to create regression directory"])) ∧
    (∀ c, fs.testsDirExists = true → fs.testFile = some c →
      env.mkdirFails = false → fs.regressionPath ≠ RegPath.nondir →
      env.copyFails = true →
      (move_test_to_regression fs env).1 = false ∧
      (move_test_to_regression fs env).2.1.testFile = some c ∧
      (move_test_to_regression fs env).2.2 ≠ []) ∧
    (∀ c, fs.testsDirExists = true → fs.testFile = some c →
      env.mkdirFails = false → fs.regressionPath ≠ RegPath.nondir →
      env.copyFails = false → env.unlinkFails = true →
      (move_test_to_regression fs env).1 = false ∧
      (move_test_to_regression fs env).2.1.testFile = some c ∧
      (move_test_to_regression fs env).2.1.destFile = some c ∧
      (move_test_to_regression fs env).2.2 ≠ []) ∧
    (∀ c, fs.testsDirExists = true → fs.testFile = some c →
      env.mkdirFails = false → fs.regressionPath ≠ RegPath.nondir →
      env.copyFails = false → env.unlinkFails = false →
      move_test_to_regression fs env =
        (true, ⟨true, none, RegPath.dir, some c⟩, [])) := by
  refine ⟨?_, ?_, ?_, ?_, ?_, ?_, ?_⟩
  · intro h1
    simp [move_test_to_regression, h1]
  · intro h1 h2
    simp [move_test_to_regression, h1, h2]
  · intro c h1 h2 h3
    simp [move_test_to_regression, h1, h2, h3]
  · intro c h1 h2 h3 h4
    simp [move_test_to_regression, h1, h2, h3, h4]
  · intro c h1 h2 h3 h4 h5
    simp [move_test_to_regression, h1, h2, h3, h4, h5]
  · intro c h1 h2 h3 h4 h5 h6
    simp [move_test_to_regression, h1, h2, h3, h4, h5, h6]
  · intro c h1 h2 h3 h4 h5 h6
    simp [move_test_to_regression, h1, h2, h3, h4, h5, h6]

/-- Witness for move_test_to_regression_spec: a delete failure after a
successful copy leaves the test in both locations, and the all-good case
moves it. -/
theorem move_test_to_regression_spec_witness :
    ((move_test_to_regression ⟨true, some "body", .dir, none⟩ ⟨false, false, none, true⟩).1 = false ∧
     (move_test_to_regression ⟨true, some "body", .dir, none⟩ ⟨false, false, none, true⟩).2.1.testFile = some "body" ∧
     (move_test_to_regression ⟨true, some "body", .dir, none⟩ ⟨false, false, none, true⟩).2.1.destFile = some "body" ∧
     (move_test_to_regression ⟨true, some "body", .dir, none⟩ ⟨false, false, none, true⟩).2.2 ≠ []) ∧
    move_test_to_regression ⟨true, some "body", .absent, none⟩ ⟨false, false, none, false⟩ =
      (true, ⟨true, none, RegPath.dir, some "body"⟩, []) :=
  ⟨(move_test_to_regression_spec ⟨true, some "body", .dir, none⟩
      ⟨false, false, none, true⟩).2.2.2.2.2.1 "body" rfl rfl rfl (by decide) rfl rfl,
   (move_test_to_regression_spec ⟨true, some "body", .absent, none⟩
      ⟨false, false, none, false⟩).2.2.2.2.2.2 "body" rfl rfl rfl (by decide) rfl rfl⟩

/-- The archive phase never persists state: its event trace contains no
save event. -/
theorem archivePhase_no_save (w : PrdWorld) (s : ExecState) (aOk : Bool) :
    Ev.save ∉ (archivePhase w s aOk).2 := by
  unfold archivePhase
  rcases s.current_prd with _ | prd
  · simp
  · simp only [verify_state_integrity]
    split <;> simp_all
    split <;> simp_all
    split
    · split <;> simp_all
    · simp

/-- The directory listings produced by load_next_prd are exactly those
produced by its archive phase: the queue-selection part only reads. -/
theorem load_next_prd_world (w : PrdWorld) (s : ExecState) (aOk : Bool) :
    (load_next_prd w s aOk).2.2.1 = (archivePhase w s aOk).1 := by
  unfold load_next_prd
  rcases hA : archivePhase w s aOk with ⟨w1, evs1⟩
  simp only
  split
  · rfl
  · split <;> rfl

/-- Every event of the archive phase appears in the trace of
load_next_prd. -/
theorem load_next_prd_events_mono (w : PrdWorld) (s : ExecState) (aOk : Bool) :
    ∀ e ∈ (archivePhase w s aOk).2, e ∈ (load_next_prd w s aOk).2.2.2 := by
  intro e he
  unfold load_next_prd
  rcases hA : archivePhase w s aOk with ⟨w1, evs1⟩
  rw [hA] at he
  simp only at he
  simp only
  split
  · exact List.mem_append_left _ he
  · split <;> exact List.mem_append_left _ he

/-- Behaviour of the archive phase when remaining stories exist: the
archive is skipped, the directories are untouched, and the single
warning interpolates the remaining-story list. -/
theorem archivePhase_incomplete_remaining (w : PrdWorld) (s : ExecState)
    (aOk : Bool) (prd : String) (hc : s.current_prd = some prd)
    (hr : s.remaining_stories ≠ []) :
    archivePhase w s aOk =
      (w, [Ev.warn (cannotArchiveMsg prd (incompleteStoriesMsg s.remaining_stories))]) := by
  unfold archivePhase
  rw [hc]
  simp [verify_state_integrity, verify_completion, hr]

/-- Behaviour of the archive phase when remaining is empty but a story
of the PRD is missing from completed: the archive is skipped, the
directories are untouched, and the warning names the first missing
story. -/
theorem archivePhase_incomplete_missing (w : PrdWorld) (s : ExecState)
    (aOk : Bool) (prd : String) (ids : List String) (id0 : String)
    (hc : s.current_prd = some prd) (hr : s.remaining_stories = [])
    (hl : lookupFile w.prds prd = some (some ids))
    (hf : ids.find? (fun i => !(s.completed_stories.contains i)) = some id0) :
    archivePhase w s aOk =
      (w, [Ev.warn (cannotArchiveMsg prd ("Story " ++ id0 ++ " not in completed_stories"))]) := by
  unfold archivePhase
  rw [hc]
  simp only [verify_state_integrity]
  unfold verify_completion
  rw [hr, hl]
  simp at hf
  simp [hf]

/-- A fragment of the completion error occurs inside the skip-archive
warning built around it. -/
theorem infixCannotArchive (prd err : String) {x : List Char}
    (h : x <:+: err.toList) :
    x <:+: (cannotArchiveMsg prd err).toList := by
  unfold cannotArchiveMsg
  simp only [toListAppend]
  exact infixExtendRight _ (infixExtendLeft _ h)

/-- A remaining story id occurs inside the incomplete-stories message. -/
theorem infixIncompleteMsg (rem : List String) (id : String) (hid : id ∈ rem) :
    id.toList <:+: (incompleteStoriesMsg rem).toList := by
  unfold incompleteStoriesMsg
  simp only [toListAppend]
  exact infixExtendLeft _ (infixPyListRepr rem id hid)

/-- C8 (amended): with a current PRD set, whenever the current PRD is
incomplete, load_next_prd skips archiving — the prds directory and the
archive listing are exactly as before, so the source PRD file still
exists — and logs a warning; when remaining_stories is non-empty the
warning names every remaining story, and when remaining_stories is empty
but a PRD story is missing from completed_stories the warning names the
first such missing story.  The queue selection that follows operates on
the unchanged directory, so the unarchived PRD is still in the queue. -/
theorem load_next_prd_incomplete_skips_archive (w : PrdWorld) (s : ExecState)
    (aOk : Bool) (prd : String) (hc : s.current_prd = some prd) :
    (s.remaining_stories ≠ [] →
      (load_next_prd w s aOk).2.2.1 = w ∧
      ∃ m, Ev.warn m ∈ (load_next_prd w s aOk).2.2.2 ∧
        ∀ id ∈ s.remaining_stories, id.toList <:+: m.toList) ∧
    (∀ ids id0, s.remaining_stories = [] →
      lookupFile w.prds prd = some (some ids) →
      ids.find? (fun i => !(s.completed_stories.contains i)) = some id0 →
      (load_next_prd w s aOk).2.2.1 = w ∧
      ∃ m, Ev.warn m ∈ (load_next_prd w s aOk).2.2.2 ∧
        id0.toList <:+: m.toList) := by
  constructor
  · intro hr
    have hA := archivePhase_incomplete_remaining w s aOk prd hc hr
    constructor
    · rw [load_next_prd_world, hA]
    · refine ⟨cannotArchiveMsg prd (incompleteStoriesMsg s.remaining_stories), ?_, ?_⟩
      · apply load_next_prd_events_mono
        rw [hA]
        simp
      · intro id hid
        exact infixCannotArchive _ _ (infixIncompleteMsg _ _ hid)
  · intro ids id0 hr hl hf
    have hA := archivePhase_incomplete_missing w s aOk prd ids id0 hc hr hl hf
    constructor
    · rw [load_next_prd_world, hA]
    · refine ⟨cannotArchiveMsg prd ("Story " ++ id0 ++ " not in completed_stories"), ?_, ?_⟩
      · apply load_next_prd_events_mono
        rw [hA]
        simp
      · apply infixCannotArchive
        rw [toListAppend, toListAppend]
        exact infixExtendRight _ (infixExtendLeft _ List.infix_rfl)

/-- C8 counterexample: with remaining_stories empty, both US-1 and US-2
incomplete (neither is in completed_stories), the single skip-archive
warning names only the first missing story US-1; the incomplete story
US-2 is not named anywhere in the trace, so the claim that the warning
names the incomplete stories fails as stated. -/
theorem load_next_prd_partial_warning_counterexample :
    "US-2" ∈ ["US-1", "US-2"] ∧
    "US-2" ∉ twoStoryState.completed_stories ∧
    (load_next_prd twoStoryWorld twoStoryState true).2.2.2 =
      [Ev.warn twoStoryWarning, Ev.save] ∧
    ¬ ("US-2".toList <:+: twoStoryWarning.toList) := by
  refine ⟨by decide, by decide, by decide, by decide⟩

/-- Witness for load_next_prd_incomplete_skips_archive: one remaining
story blocks archiving and is named in the warning. -/
theorem load_next_prd_incomplete_skips_archive_witness :
    (load_next_prd oneStoryWorld oneStoryState true).2.2.1 = oneStoryWorld ∧
    ∃ m, Ev.warn m ∈ (load_next_prd oneStoryWorld oneStoryState true).2.2.2 ∧
      ∀ id ∈ oneStoryState.remaining_stories, id.toList <:+: m.toList :=
  (load_next_prd_incomplete_skips_archive oneStoryWorld oneStoryState true
    "p.json" rfl).1 (by decide)

/-- C10: when the lexicographically first PRD file selected after the
archive phase has contents that cannot be parsed as JSON, load_next_prd
returns false, the execution state is exactly the prior state (all
fields retain their values), no save event occurs anywhere in the trace
(nothing is persisted), and the failure is logged as an error rather
than raised (the embedding returns normally). -/
theorem load_next_prd_invalid_json_preserves_state (w : PrdWorld) (s : ExecState)
    (aOk : Bool) (nm : String) (rest : List String)
    (h1 : sortNames ((archivePhase w s aOk).1.prds.map Prod.fst) = nm :: rest)
    (h2 : lookupFile (archivePhase w s aOk).1.prds nm = some none) :
    (load_next_prd w s aOk).1 = false ∧
    (load_next_prd w s aOk).2.1 = s ∧
    Ev.save ∉ (load_next_prd w s aOk).2.2.2 ∧
    ∃ m, Ev.errlog m ∈ (load_next_prd w s aOk).2.2.2 := by
  have hns := archivePhase_no_save w s aOk
  unfold load_next_prd
  rcases hA : archivePhase w s aOk with ⟨w1, evs1⟩
  rw [hA] at h1 h2 hns
  simp only at h1 h2 hns
  simp only [h1, h2]
  refine ⟨trivial, trivial, ?_, ?_⟩
  · simp [List.mem_append, hns]
  · exact ⟨"Failed to load PRD " ++ nm ++ ": invalid JSON: parse error",
      List.mem_append_right _ (by simp)⟩

/-- Witness for load_next_prd_invalid_json_preserves_state on a world
whose head PRD file is invalid JSON. -/
theorem load_next_prd_invalid_json_preserves_state_witness :
    (load_next_prd badJsonWorld emptyQueueState true).1 = false ∧
    (load_next_prd badJsonWorld emptyQueueState true).2.1 = emptyQueueState ∧
    Ev.save ∉ (load_next_prd badJsonWorld emptyQueueState true).2.2.2 :=
  ⟨(load_next_prd_invalid_json_preserves_state badJsonWorld emptyQueueState true
      "a.json" [] (by decide) (by decide)).1,
   (load_next_prd_invalid_json_preserves_state badJsonWorld emptyQueueState true
      "a.json" [] (by decide) (by decide)).2.1,
   (load_next_prd_invalid_json_preserves_state badJsonWorld emptyQueueState true
      "a.json" [] (by decide) (by decide)).2.2.1⟩
